import Mathlib

/-!
Verification of the Docmed medical-assistant backend
(src/Docmed.ai/medical_assistant_backend.py): a Flask app with one
liveness route, one POST handler that forwards a user prompt to an
external LLM with a structured-output schema, and module-level startup
code checking the API key. The Python code is shallowly embedded below:
JSON values are an inductive type, fallible Python operations (dict.get
on a non-dict, str.strip on a non-string) return Except, and the
external collaborators (json.loads, the Gemini client) are parameters
of the handler. The handler additionally records the list of prompts
sent to the external LLM so that call-count properties can be stated.
-/

namespace Docmed

/-- A JSON value, as produced by Flask request.get_json and json.loads.
Numbers are modelled as integers, which is enough for the claims. -/
inductive Json where
  | null
  | bool (b : Bool)
  | num (n : Int)
  | str (s : String)
  | arr (xs : List Json)
  | obj (fields : List (String × Json))

/-- Whether a JSON value is an object carrying the given key. -/
def Json.hasField : Json → String → Bool
  | .obj fields, k => (fields.lookup k).isSome
  | _, _ => false

/-- The ASCII whitespace characters stripped by Python str.strip(). -/
def pyIsSpace (c : Char) : Bool :=
  c = ' ' || c = '\t' || c = '\n' || c = '\r' || c = '\x0b' || c = '\x0c'

/-- Python str.strip(): remove leading and trailing whitespace. -/
def pyStrip (s : String) : String :=
  String.mk (((s.toList.dropWhile pyIsSpace).reverse.dropWhile pyIsSpace).reverse)

/-- Python data.get(key, default) where data is the parsed JSON body:
returns the value at the key (or the default) when data is a dict, and
raises AttributeError when data is None or not a dict. -/
def pyDictGet (data : Option Json) (key : String) (default : Json) :
    Except String Json :=
  match data with
  | none => .error "AttributeError: \x27NoneType\x27 object has no attribute \x27get\x27"
  | some (.obj fields) => .ok ((fields.lookup key).getD default)
  | some _ => .error "AttributeError: object has no attribute \x27get\x27"

/-- Python v.strip() on a JSON value: strips when v is a string,
raises AttributeError otherwise. -/
def pyStrStrip (v : Json) : Except String String :=
  match v with
  | .str s => .ok (pyStrip s)
  | _ => .error "AttributeError: object has no attribute \x27strip\x27"

/-- create_medical_prompt from the source: the f-string system prompt
embedding the user input and the disclaimer directive. -/
def create_medical_prompt (user_input : String) : String :=
  "\n    You are a non-diagnostic medical information assistant. Your goal is to provide general, solution, educational information based on a user\x27s health-related query.\n\n    **CRITICAL SAFETY WARNING:** You must include a prominent and specific legal disclaimer in the \x27important_disclaimer\x27 field. This information is NOT medical advice, diagnosis, or treatment and should not replace consultation with a qualified healthcare professional.\n\n    Based on the user\x27s input: \"" ++ user_input ++ "\". Generate a detailed, educational response strictly in a single JSON block following the provided schema.\n    "

/-- The types.Type enumeration values used by the source. -/
inductive SchemaType where
  | OBJECT
  | STRING
  | ARRAY
  deriving DecidableEq

/-- google.genai types.Schema, restricted to the keyword arguments the
source uses: type, description, properties, items, required. -/
inductive Schema where
  | mk (type : SchemaType)
       (description : Option String)
       (properties : List (String × Schema))
       (items : Option Schema)
       (required : List String)

/-- The type field of a Schema. -/
def Schema.type : Schema → SchemaType
  | .mk t _ _ _ _ => t

/-- The description field of a Schema. -/
def Schema.description : Schema → Option String
  | .mk _ d _ _ _ => d

/-- The properties field of a Schema. -/
def Schema.properties : Schema → List (String × Schema)
  | .mk _ _ p _ _ => p

/-- The items field of a Schema. -/
def Schema.items : Schema → Option Schema
  | .mk _ _ _ i _ => i

/-- The required field of a Schema. -/
def Schema.required : Schema → List String
  | .mk _ _ _ _ r => r

/-- get_medical_schema from the source: the structured-output schema
for general medical information. Modelled as a function of Unit since
the Python source re-runs the constructor on every call. -/
def get_medical_schema : Unit → Schema := fun _ =>
  .mk .OBJECT none
    [ ("query",
        .mk .STRING (some "The original user query.") [] none []),
      ("potential_condition",
        .mk .STRING (some "The general condition or topic related to the query.") [] none []),
      ("summary",
        .mk .STRING (some "A concise educational summary of the topic.") [] none []),
      ("common_symptoms",
        .mk .ARRAY (some "A list of common symptoms associated with the condition.")
          [] (some (.mk .STRING none [] none [])) []),
      ("recommended_actions",
        .mk .ARRAY (some "General advice for next steps, such as resting or consulting a doctor.")
          [] (some (.mk .STRING none [] none [])) []),
      ("important_disclaimer",
        .mk .STRING (some "A mandatory safety warning that this is AI medical advice But go to the doctor for more appropriate answers.")
          [] none []) ]
    none
    ["query", "potential_condition", "summary", "important_disclaimer"]

/-- Outcome of one call to the external LLM capability
(gemini_client.models.generate_content followed by reading .text):
either the call raises, or it returns response text. -/
inductive LLMOutcome where
  | raises (msg : String)
  | returns (text : String)
  deriving DecidableEq

/-- An HTTP response: status code and JSON body, as produced by
jsonify(...), code. -/
structure Response where
  status : Nat
  body : Json

/-- The jsonify error payload used by the handler. -/
def errorBody (msg : String) : Json := .obj [("error", .str msg)]

/-- The exact 400 validation message of the handler. -/
def missingPromptMsg : String := "Missing \x27prompt\x27 in request body."

/-- One run of the get_medical_info handler: either an unhandled
Python exception (Except.error) or an HTTP response, together with the
list of prompts sent to the external LLM during the run. -/
structure HandlerRun where
  result : Except String Response
  llmCalls : List String

/-- get_medical_info from the source. Parameters: loads models
json.loads (ok on valid JSON text, error with the decode-error text
otherwise); llm models the external Gemini call on the built prompt;
data is the parsed request body from request.get_json(). The control
flow mirrors the Python: data.get, .strip(), the emptiness check, then
the try block around the LLM call and JSON parsing. -/
def get_medical_info (loads : String → Except String Json)
    (llm : String → LLMOutcome) (data : Option Json) : HandlerRun :=
  match pyDictGet data "prompt" (.str "") with
  | .error e => ⟨.error e, []⟩
  | .ok pv =>
    match pyStrStrip pv with
    | .error e => ⟨.error e, []⟩
    | .ok user_prompt =>
      if user_prompt = "" then
        ⟨.ok ⟨400, errorBody missingPromptMsg⟩, []⟩
      else
        let system_prompt := create_medical_prompt user_prompt
        match llm system_prompt with
        | .raises e =>
            ⟨.ok ⟨500, errorBody ("Failed to get medical information. Detail: " ++ e)⟩,
             [system_prompt]⟩
        | .returns text =>
            match loads text with
            | .ok j =>
                ⟨.ok ⟨200, .obj [("success", .bool true), ("data", j)]⟩,
                 [system_prompt]⟩
            | .error e =>
                ⟨.ok ⟨500, errorBody ("Failed to get medical information. Detail: " ++ e)⟩,
                 [system_prompt]⟩

/-- home from the source: the GET / liveness route. Modelled as a
function of Unit since it reads nothing. -/
def home : Unit → Response := fun _ =>
  ⟨200, .obj [("message",
    .str "Medical Assistant Backend is running. Endpoint: /api/get-medical-info")]⟩

/-- Outcome of the module-level startup code. -/
inductive StartupOutcome where
  | exited (code : Nat)
  | serving
  deriving DecidableEq

/-- The module-level startup code of the source: read GEMINI_API_KEY
from the environment (os.getenv), exit(1) when it is missing or falsy
(the empty string), then initialize the Gemini client, exiting with 1
when that raises; otherwise the app serves. env models the process
environment; initClient models genai.Client construction. -/
def startup (env : String → Option String)
    (initClient : String → Except String Unit) : StartupOutcome :=
  match env "GEMINI_API_KEY" with
  | none => .exited 1
  | some key =>
    if key = "" then .exited 1
    else
      match initClient key with
      | .error _ => .exited 1
      | .ok _ => .serving

end Docmed

namespace Docmed

/-- C1: when the JSON-object request body has its prompt field absent,
or present as a string that is empty or whitespace-only after
stripping, the handler returns HTTP 400 with the exact error body and
sends nothing to the external LLM. -/
theorem missing_prompt_returns_400_without_llm_call
    (loads : String → Except String Json) (llm : String → LLMOutcome)
    (fields : List (String × Json))
    (h : fields.lookup "prompt" = none ∨
         ∃ s, fields.lookup "prompt" = some (.str s) ∧ pyStrip s = "") :
    get_medical_info loads llm (some (.obj fields)) =
      ⟨.ok ⟨400, errorBody missingPromptMsg⟩, []⟩ := by
  rcases h with h | ⟨s, hs, hstrip⟩
  · simp [get_medical_info, pyDictGet, h, pyStrStrip, pyStrip]
  · simp [get_medical_info, pyDictGet, hs, pyStrStrip, hstrip]

/-- C1 witness: a whitespace-only prompt yields the 400 response and
an empty LLM call list. -/
theorem missing_prompt_returns_400_without_llm_call_witness :
    get_medical_info (fun _ => Except.error "no parse")
        (fun _ => LLMOutcome.raises "down")
        (some (.obj [("prompt", Json.str "   ")])) =
      ⟨.ok ⟨400, errorBody missingPromptMsg⟩, []⟩ :=
  missing_prompt_returns_400_without_llm_call _ _ _ (Or.inr ⟨"   ", rfl, rfl⟩)

/-- C2: with a prompt string that is non-empty after stripping, when
the LLM call returns text and json.loads parses it to j, the handler
responds HTTP 200 with body with success true and data j. -/
theorem valid_prompt_parsed_response_returns_200
    (loads : String → Except String Json) (llm : String → LLMOutcome)
    (fields : List (String × Json)) (s text : String) (j : Json)
    (hp : fields.lookup "prompt" = some (.str s))
    (hne : pyStrip s ≠ "")
    (hllm : llm (create_medical_prompt (pyStrip s)) = .returns text)
    (hparse : loads text = .ok j) :
    (get_medical_info loads llm (some (.obj fields))).result =
      .ok ⟨200, .obj [("success", .bool true), ("data", j)]⟩ := by
  simp [get_medical_info, pyDictGet, hp, pyStrStrip, hne, hllm, hparse]

/-- C2 witness: a concrete request whose mocked LLM returns text
parsed to a concrete object yields the 200 success response. -/
theorem valid_prompt_parsed_response_returns_200_witness :
    (get_medical_info (fun _ => Except.ok (Json.obj [("query", Json.str "flu")]))
        (fun _ => LLMOutcome.returns "ok-text")
        (some (.obj [("prompt", Json.str "flu")]))).result =
      .ok ⟨200, .obj [("success", .bool true),
                      ("data", Json.obj [("query", Json.str "flu")])]⟩ :=
  valid_prompt_parsed_response_returns_200 _ _ _ "flu" "ok-text" _
    rfl (by decide) rfl rfl

/-- C3: with a valid prompt, when the LLM call raises, or returns text
that json.loads rejects, the handler responds HTTP 500 with the error
message built from the failure detail, and does not crash (the run
result is a response, not an unhandled exception). -/
theorem llm_failure_returns_500
    (loads : String → Except String Json) (llm : String → LLMOutcome)
    (fields : List (String × Json)) (s text e : String)
    (hp : fields.lookup "prompt" = some (.str s))
    (hne : pyStrip s ≠ "")
    (hfail : llm (create_medical_prompt (pyStrip s)) = .raises e ∨
             (llm (create_medical_prompt (pyStrip s)) = .returns text ∧
              loads text = .error e)) :
    (get_medical_info loads llm (some (.obj fields))).result =
      .ok ⟨500, errorBody ("Failed to get medical information. Detail: " ++ e)⟩ := by
  rcases hfail with hfail | ⟨hret, hparse⟩
  · simp [get_medical_info, pyDictGet, hp, pyStrStrip, hne, hfail]
  · simp [get_medical_info, pyDictGet, hp, pyStrStrip, hne, hret, hparse]

/-- C3 witness: a mocked raising LLM yields the 500 response with the
detail text. -/
theorem llm_failure_returns_500_witness :
    (get_medical_info (fun _ => Except.error "bad json")
        (fun _ => LLMOutcome.raises "network error")
        (some (.obj [("prompt", Json.str "flu")]))).result =
      .ok ⟨500, errorBody ("Failed to get medical information. Detail: " ++ "network error")⟩ :=
  llm_failure_returns_500 _ _ _ "flu" "ignored" "network error"
    rfl (by decide) (Or.inl rfl)

set_option maxRecDepth 8192 in
/-- C4: the prompt builder is total by construction and its output
contains the user input verbatim as well as the directive to put a
safety warning in the important_disclaimer field. -/
theorem prompt_contains_input_and_disclaimer_directive (s : String) :
    (∃ a b, create_medical_prompt s = a ++ s ++ b) ∧
    (∃ u v, create_medical_prompt s =
      u ++ "You must include a prominent and specific legal disclaimer in the \x27important_disclaimer\x27 field. This information is NOT medical advice" ++ v) :=
  ⟨⟨"\n    You are a non-diagnostic medical information assistant. Your goal is to provide general, solution, educational information based on a user\x27s health-related query.\n\n    **CRITICAL SAFETY WARNING:** You must include a prominent and specific legal disclaimer in the \x27important_disclaimer\x27 field. This information is NOT medical advice, diagnosis, or treatment and should not replace consultation with a qualified healthcare professional.\n\n    Based on the user\x27s input: \"",
    "\". Generate a detailed, educational response strictly in a single JSON block following the provided schema.\n    ", rfl⟩,
   ⟨"\n    You are a non-diagnostic medical information assistant. Your goal is to provide general, solution, educational information based on a user\x27s health-related query.\n\n    **CRITICAL SAFETY WARNING:** ",
    ", diagnosis, or treatment and should not replace consultation with a qualified healthcare professional.\n\n    Based on the user\x27s input: \"" ++ s ++ "\". Generate a detailed, educational response strictly in a single JSON block following the provided schema.\n    ", rfl⟩⟩

/-- C5: every call of the schema builder gives the same schema; its
required list is exactly query, potential_condition, summary,
important_disclaimer; and common_symptoms and recommended_actions are
present as ARRAY-of-STRING properties that are not required. -/
theorem schema_required_and_optional_fields (u v : Unit) :
    get_medical_schema u = get_medical_schema v ∧
    (get_medical_schema u).required =
      ["query", "potential_condition", "summary", "important_disclaimer"] ∧
    (∃ cs, ((get_medical_schema u).properties.lookup "common_symptoms") = some cs ∧
      cs.type = .ARRAY ∧ (∃ it, cs.items = some it ∧ it.type = .STRING) ∧
      "common_symptoms" ∉ (get_medical_schema u).required) ∧
    (∃ ra, ((get_medical_schema u).properties.lookup "recommended_actions") = some ra ∧
      ra.type = .ARRAY ∧ (∃ it, ra.items = some it ∧ it.type = .STRING) ∧
      "recommended_actions" ∉ (get_medical_schema u).required) := by
  cases u
  cases v
  exact ⟨rfl, rfl, ⟨_, rfl, rfl, ⟨_, rfl, rfl⟩, by decide⟩,
         ⟨_, rfl, rfl, ⟨_, rfl, rfl⟩, by decide⟩⟩

/-- C6: a request whose parsed body is None, and one whose prompt
value is a JSON number, both make the handler raise an unhandled
AttributeError before the validation branch, so the response is not
the 400 validation payload and the LLM is not called. -/
theorem nonobject_body_or_nonstring_prompt_raises
    (loads : String → Except String Json) (llm : String → LLMOutcome) :
    ((get_medical_info loads llm none).result =
        .error "AttributeError: \x27NoneType\x27 object has no attribute \x27get\x27" ∧
      (get_medical_info loads llm none).result ≠
        .ok ⟨400, errorBody missingPromptMsg⟩ ∧
      (get_medical_info loads llm none).llmCalls = []) ∧
    ((get_medical_info loads llm (some (.obj [("prompt", .num 5)]))).result =
        .error "AttributeError: object has no attribute \x27strip\x27" ∧
      (get_medical_info loads llm (some (.obj [("prompt", .num 5)]))).result ≠
        .ok ⟨400, errorBody missingPromptMsg⟩ ∧
      (get_medical_info loads llm (some (.obj [("prompt", .num 5)]))).llmCalls = []) := by
  refine ⟨⟨rfl, fun h => ?_, rfl⟩, ⟨rfl, fun h => ?_, rfl⟩⟩ <;>
    simp [get_medical_info, pyDictGet, pyStrStrip] at h

/-- C6 witness: with concrete mocks, a None body makes the handler
raise AttributeError instead of returning a response. -/
theorem nonobject_body_or_nonstring_prompt_raises_witness :
    (get_medical_info (fun _ => Except.error "p")
        (fun _ => LLMOutcome.raises "d") none).result =
      Except.error "AttributeError: \x27NoneType\x27 object has no attribute \x27get\x27" ∧
    (get_medical_info (fun _ => Except.error "p") (fun _ => LLMOutcome.raises "d")
        (some (.obj [("prompt", .num 5)]))).result =
      Except.error "AttributeError: object has no attribute \x27strip\x27" :=
  ⟨(nonobject_body_or_nonstring_prompt_raises _ _).1.1,
   (nonobject_body_or_nonstring_prompt_raises _ _).2.1⟩

/-- C7: the handler does not re-validate the parsed LLM output: even a
parsed object with no important_disclaimer field is returned unchanged
as the data field with HTTP 200. -/
theorem parsed_data_returned_unvalidated
    (loads : String → Except String Json) (llm : String → LLMOutcome)
    (fields : List (String × Json)) (s text : String) (j : Json)
    (hp : fields.lookup "prompt" = some (.str s))
    (hne : pyStrip s ≠ "")
    (hllm : llm (create_medical_prompt (pyStrip s)) = .returns text)
    (hparse : loads text = .ok j)
    (_hnd : j.hasField "important_disclaimer" = false) :
    (get_medical_info loads llm (some (.obj fields))).result =
      .ok ⟨200, .obj [("success", .bool true), ("data", j)]⟩ := by
  simp [get_medical_info, pyDictGet, hp, pyStrStrip, hne, hllm, hparse]

/-- C7 witness: a parsed object missing important_disclaimer is still
returned as data with HTTP 200. -/
theorem parsed_data_returned_unvalidated_witness :
    (get_medical_info (fun _ => Except.ok (Json.obj [("summary", Json.str "rest")]))
        (fun _ => LLMOutcome.returns "txt")
        (some (.obj [("prompt", Json.str "flu")]))).result =
      .ok ⟨200, .obj [("success", .bool true),
                      ("data", Json.obj [("summary", Json.str "rest")])]⟩ :=
  parsed_data_returned_unvalidated _ _ _ "flu" "txt" _
    rfl (by decide) rfl rfl rfl

/-- C8: on every run the handler sends at most one prompt to the
external LLM; there is no retry or second invocation. -/
theorem llm_called_at_most_once
    (loads : String → Except String Json) (llm : String → LLMOutcome)
    (data : Option Json) :
    (get_medical_info loads llm data).llmCalls.length ≤ 1 := by
  simp only [get_medical_info]
  repeat' split
  all_goals simp

/-- C9: when GEMINI_API_KEY is absent from the environment, or the
client initializer fails, startup exits with status 1; and any exit
status of startup is nonzero. -/
theorem missing_key_or_client_failure_exits_nonzero
    (env : String → Option String) (initClient : String → Except String Unit) :
    (env "GEMINI_API_KEY" = none → startup env initClient = .exited 1) ∧
    (∀ k e, env "GEMINI_API_KEY" = some k → initClient k = .error e →
      startup env initClient = .exited 1) ∧
    (∀ c, startup env initClient = .exited c → c ≠ 0) := by
  have hcases : startup env initClient = .exited 1 ∨
      startup env initClient = .serving := by
    simp only [startup]
    repeat' split
    all_goals simp
  refine ⟨fun h => by simp [startup, h], fun k e hk he => ?_, fun c hc => ?_⟩
  · by_cases hke : k = "" <;> simp [startup, hk, hke, he]
  · rcases hcases with h1 | h1 <;> rw [hc] at h1 <;> simp at h1
    omega

/-- C9 witness: a concrete empty environment exits with 1, and a
concrete failing client initializer exits with 1. -/
theorem missing_key_or_client_failure_exits_nonzero_witness :
    startup (fun _ => none) (fun _ => Except.ok ()) = .exited 1 ∧
    startup (fun _ => some "k") (fun _ => Except.error "init failed") = .exited 1 :=
  ⟨(missing_key_or_client_failure_exits_nonzero _ _).1 rfl,
   (missing_key_or_client_failure_exits_nonzero (fun _ => some "k") _).2.1
     "k" "init failed" rfl rfl⟩

/-- C10: the liveness route always returns HTTP 200 with the exact
static message, depending on nothing. -/
theorem home_returns_200_static_message (u : Unit) :
    home u = ⟨200, .obj [("message",
      .str "Medical Assistant Backend is running. Endpoint: /api/get-medical-info")]⟩ :=
  rfl

end Docmed
